import Mathlib

/-!
Shallow embedding of the totem-connection-2025 synchronization scripts
(src/scripts/darujme.py and src/scripts/anabix.py), together with proofs
about the donor reconciliation, deal resolution, duplicate-activity guard,
pledge filtering, timeframe resolution and amount conversion logic.

Modelling conventions:
* Python dict-based records become structures; possibly missing fields are
  Option, and Python falsiness is made explicit via the helpers `strTruthy`,
  `optStrTruthy`, `optNatTruthy` (empty string, None, and 0 are falsy).
* Network calls are modelled by passing the response the remote service
  would give as an explicit argument (or as a field of `CrmEnv`), and every
  embedded operation reports which endpoints it invoked, so that statements
  of the form "never calls the create endpoint" can be expressed.
* Python integers are unbounded, so Nat/Int model them exactly.  The Python
  expression int(round(cents / 100)) is embedded as exact rational
  rounding-half-to-even (`amount_czk`); the float division agrees with the
  exact rational for every realistic minor-unit amount (below 2^51).
* Naive local datetimes are embedded with proleptic-Gregorian epoch-day
  arithmetic (`daysFromCivil`); the code only ever compares two timestamps
  produced by the same conversion, so a fixed local-offset shift cancels.
-/

namespace TotemSync

/-! ### Python truthiness helpers -/

/-- Truthiness of a Python string: the empty string is falsy. -/
def strTruthy (s : String) : Bool := !s.isEmpty

/-- Truthiness of an optional Python string (None and "" are falsy). -/
def optStrTruthy : Option String → Bool
  | none => false
  | some s => strTruthy s

/-- Truthiness of an optional Python int (None and 0 are falsy). -/
def optNatTruthy : Option Nat → Bool
  | none => false
  | some n => n != 0

/-! ### JSON scalar keys

Python dict keys in the snapshot files can be either the string form of a
project id (as built by read_darujme_projects) or the raw integer delivered
in the JSON.  Python equality between an int and a str is always False. -/

inductive JsonKey where
  | str : String → JsonKey
  | int : Int → JsonKey
deriving DecidableEq, Repr

/-- Python str() applied to a scalar key. -/
def JsonKey.toPyStr : JsonKey → String
  | .str s => s
  | .int n => toString n

/-! ### Data model (darujme snapshot records) -/

structure Transaction where
  state : String
  sentAmountCents : Nat
  outgoingAmountCents : Nat
deriving DecidableEq, Repr

structure Address where
  street : String
  city : String
  postCode : String
  country : String
deriving DecidableEq, Repr

structure Donor where
  email : Option String
  firstName : String
  lastName : String
  phone : String
  companyName : String
  address : Option Address
deriving DecidableEq, Repr

structure Pledge where
  pledgeId : Nat
  projectId : JsonKey
  pledgedAt : String
  donor : Donor
  transactions : List Transaction
deriving DecidableEq, Repr

/-! ### darujme.py : filter_successful_pledges -/

/-- The successful transaction states (darujme.py line 94, anabix.py line 1050). -/
def successfulStates : List String :=
  ["success", "success_money_on_account", "sent_to_organization"]

/-- A pledge passes the filter iff some transaction has a successful state. -/
def pledgeSuccessful (p : Pledge) : Bool :=
  p.transactions.any (fun t => decide (t.state ∈ successfulStates))

/-- filter_successful_pledges (darujme.py lines 84-108).  The input document is
`none` when the raw data is falsy (None or an empty dict), `some none` when the
dict lacks the top-level pledges key, and `some (some l)` otherwise; the result
is the pledges list of the returned document. -/
def filter_successful_pledges (data : Option (Option (List Pledge))) : List Pledge :=
  match data with
  | some (some pledges) => pledges.filter pledgeSuccessful
  | _ => []

/-! ### darujme.py : get_date_range -/

/-- Value of a run of decimal digit characters (Python int() on an ASCII digit
string). -/
def digitsVal (cs : List Char) : Nat :=
  cs.foldl (fun acc c => acc * 10 + (c.toNat - 48)) 0

/-- Python str.isdigit restricted to ASCII: nonempty, all decimal digits. -/
def pyIsDigitStr (s : String) : Bool :=
  !s.isEmpty && s.data.all Char.isDigit

/-- Python int() on a digit string. -/
def strToNat (s : String) : Nat := digitsVal s.data

/-- Python str.lower() (ASCII range; the timeframe tokens are ASCII). -/
def pyToLower (s : String) : String := String.mk (s.data.map Char.toLower)

/-- get_date_range (darujme.py lines 34-52), with today as an abstract day
number: "week" (case-insensitively) resolves 7 days back, "year" 365 days
back, a digit string that many days back, and anything else raises
ValueError (embedded as Except.error). -/
def get_date_range (today : Int) (timeframe : String) : Except String Int :=
  if pyToLower timeframe == "week" then Except.ok (today - 7)
  else if pyToLower timeframe == "year" then Except.ok (today - 365)
  else if pyIsDigitStr timeframe then Except.ok (today - strToNat timeframe)
  else Except.error "Timeframe must be either week or year or integer"

/-! ### String and datetime utilities used by anabix.py -/

/-- Does the second list occur as a contiguous subsequence starting at the head
of the first?  (needle, haystack order: first argument is the needle.) -/
def seqStartsWith : List Char → List Char → Bool
  | [], _ => true
  | _ :: _, [] => false
  | c :: n, h :: hs => c == h && seqStartsWith n hs

/-- Does the needle occur contiguously anywhere in the haystack? -/
def containsSeq (haystack needle : List Char) : Bool :=
  match haystack with
  | [] => needle.isEmpty
  | _ :: t => seqStartsWith needle haystack || containsSeq t needle

/-- Python substring containment: needle in haystack. -/
def strContains (haystack needle : String) : Bool :=
  containsSeq haystack.data needle.data

/-- re.sub removing a trailing UTF offset of the exact shape +HH:MM or -HH:MM
(anabix.py line 1069). -/
def stripUtcOffset (s : String) : String :=
  let cs := s.data
  let n := cs.length
  if n ≥ 6 then
    match cs.drop (n - 6) with
    | [sign, d1, d2, sep, d3, d4] =>
      if (sign == '+' || sign == '-') && d1.isDigit && d2.isDigit &&
          sep == ':' && d3.isDigit && d4.isDigit then
        String.mk (cs.take (n - 6))
      else s
    | _ => s
  else s

/-- Split a character list on every occurrence of a separator, keeping empty
fragments (like Python str.split with an explicit separator). -/
def splitListOn (sep : Char) : List Char → List (List Char)
  | [] => [[]]
  | c :: rest =>
    let r := splitListOn sep rest
    if c == sep then [] :: r
    else
      match r with
      | g :: gs => (c :: g) :: gs
      | [] => [[c]]

structure DateTime where
  year : Nat
  month : Nat
  day : Nat
  hour : Nat
  minute : Nat
  second : Nat
deriving DecidableEq, Repr

def isLeapYear (y : Nat) : Bool :=
  (y % 4 == 0 && y % 100 != 0) || y % 400 == 0

def daysInMonth (y m : Nat) : Nat :=
  if m == 2 then (if isLeapYear y then 29 else 28)
  else if m == 4 || m == 6 || m == 9 || m == 11 then 30
  else 31

/-- A four-digit year field of strptime %Y (datetime requires year ≥ 1). -/
def parseYear (cs : List Char) : Option Nat :=
  if cs.length == 4 && cs.all Char.isDigit then
    let y := digitsVal cs
    if 1 ≤ y then some y else none
  else none

/-- A one- or two-digit numeric field with an inclusive range bound. -/
def parseField2 (cs : List Char) (lo hi : Nat) : Option Nat :=
  if (cs.length == 1 || cs.length == 2) && cs.all Char.isDigit then
    let v := digitsVal cs
    if lo ≤ v && v ≤ hi then some v else none
  else none

/-- datetime.strptime with format %Y-%m-%dT%H:%M:%S (anabix.py line 1070),
including the datetime constructor range checks; none embeds ValueError. -/
def strptime_datetime (s : String) : Option DateTime :=
  match splitListOn 'T' s.data with
  | [datePart, timePart] =>
    match splitListOn '-' datePart, splitListOn ':' timePart with
    | [ys, ms, ds], [hs, mis, ss] =>
      match parseYear ys, parseField2 ms 1 12, parseField2 hs 0 23,
          parseField2 mis 0 59, parseField2 ss 0 59 with
      | some y, some m, some h, some mi, some sec =>
        match parseField2 ds 1 (daysInMonth y m) with
        | some d => some ⟨y, m, d, h, mi, sec⟩
        | none => none
      | _, _, _, _, _ => none
    | _, _ => none
  | _ => none

/-- Days since 1970-01-01 of a proleptic Gregorian civil date. -/
def daysFromCivil (y m d : Nat) : Int :=
  let yy : Int := if m ≤ 2 then (y : Int) - 1 else (y : Int)
  let era : Int := yy / 400
  let yoe : Int := yy - era * 400
  let mp : Int := if m ≤ 2 then (m : Int) + 9 else (m : Int) - 3
  let doy : Int := (153 * mp + 2) / 5 + (d : Int) - 1
  let doe : Int := yoe * 365 + yoe / 4 - yoe / 100 + doy
  era * 146097 + doe - 719468

/-- datetime.timestamp() of a naive datetime (up to the constant local-zone
offset, which cancels in every comparison the code performs). -/
def DateTime.timestamp (dt : DateTime) : Int :=
  daysFromCivil dt.year dt.month dt.day * 86400 +
    dt.hour * 3600 + dt.minute * 60 + dt.second

/-- timestamp() of the midnight that starts this datetime's calendar date:
the value strptime(dt.strftime of the date, %Y-%m-%d).timestamp() yields. -/
def DateTime.midnightTimestamp (dt : DateTime) : Int :=
  daysFromCivil dt.year dt.month dt.day * 86400

/-! ### anabix.py : activity recording -/

/-- Custom field value constants (anabix.py lines 24-26). -/
def SUPPORT_TYPE_FINANCIAL : String := "2"

def BRANCH_TYK : String := "5"

def DONOR_TYPE_INDIVIDUAL : String := "2"

/-- int(round(cents / 100)) on an exact non-negative minor-unit amount:
Python round() uses round-half-to-even (anabix.py lines 1061-1062). -/
def amount_czk (cents : Nat) : Nat :=
  if cents % 100 < 50 then cents / 100
  else if 50 < cents % 100 then cents / 100 + 1
  else if cents / 100 % 2 = 0 then cents / 100 else cents / 100 + 1

/-- The fixed-format activity body (anabix.py line 1065). -/
def pledge_activity_body (sentAmount : Nat) : String :=
  "Dar přes Darujme.cz - " ++ toString sentAmount ++ " Kč"

structure Activity where
  idActivity : Nat
  body : String
  timestamp : Int
deriving DecidableEq, Repr

/-- get_activities_by_contact_and_deal (anabix.py lines 913-967): the server
query for the contact+deal pair is abstracted as the response list; the
client-side date filter keeps activities whose timestamp is at or after the
midnight of the given date. -/
def get_activities_by_contact_and_deal (responseActivities : List Activity)
    (sinceDate : Option DateTime) : List Activity :=
  match sinceDate with
  | none => responseActivities
  | some d => responseActivities.filter (fun a => decide (d.midnightTimestamp ≤ a.timestamp))

/-- The data a created activity would carry (body, unix timestamp, and the
five custom-field values, all serialized as strings). -/
structure ActivityPayload where
  body : String
  timestamp : Int
  amountGross : String
  amountNet : String
  supportType : String
  branchCode : String
  donorType : String
deriving DecidableEq, Repr

/-- Result of create_darujme_pledge_activity: the returned activity id,
whether the activities query ran, whether the create-activity endpoint was
invoked, and with what payload. -/
structure PledgeActivityOutcome where
  result : Option Nat
  queriedActivities : Bool
  createCalled : Bool
  payload : Option ActivityPayload
deriving DecidableEq, Repr

/-- The first transaction in a successful state (anabix.py lines 1050-1055). -/
def find_successful_transaction (p : Pledge) : Option Transaction :=
  p.transactions.find? (fun t => decide (t.state ∈ successfulStates))

/-- create_darujme_pledge_activity (anabix.py lines 1036-1129).
existingActivities is the CRM response for this contact+deal,
createActivityResp the id create_activity would return; a strptime failure
propagates as Except.error (caught by the caller's per-pledge handler). -/
def create_darujme_pledge_activity (pledge : Pledge) (checkDuplicates : Bool)
    (existingActivities : List Activity) (createActivityResp : Option Nat) :
    Except String PledgeActivityOutcome :=
  match find_successful_transaction pledge with
  | none => Except.ok ⟨none, false, false, none⟩
  | some transaction =>
    let sentAmount := amount_czk transaction.sentAmountCents
    let outgoingAmount := amount_czk transaction.outgoingAmountCents
    let body := pledge_activity_body sentAmount
    match strptime_datetime (stripUtcOffset pledge.pledgedAt) with
    | none => Except.error "time data does not match format"
    | some dt =>
      let payload : ActivityPayload :=
        ⟨body, dt.timestamp, toString sentAmount, toString outgoingAmount,
          SUPPORT_TYPE_FINANCIAL, BRANCH_TYK, DONOR_TYPE_INDIVIDUAL⟩
      if checkDuplicates then
        if (get_activities_by_contact_and_deal existingActivities (some dt)).any
            (fun a => strContains a.body body) then
          Except.ok ⟨none, true, false, none⟩
        else
          Except.ok ⟨createActivityResp, true, true, some payload⟩
      else
        Except.ok ⟨createActivityResp, false, true, some payload⟩

/-! ### anabix.py : donor reconciliation -/

/-- The unique-donor extraction loop of categorize_darujme_donors (anabix.py
lines 383-391): iterate pledges in order, keep the first-seen donor record for
each not-yet-seen truthy email; the seen set holds the raw email strings. -/
def extract_unique_donors_aux (seenEmails : List String) : List Pledge → List Donor
  | [] => []
  | p :: rest =>
    match p.donor.email with
    | some e =>
      if e != "" && !(seenEmails.contains e) then
        p.donor :: extract_unique_donors_aux (e :: seenEmails) rest
      else
        extract_unique_donors_aux seenEmails rest
    | none => extract_unique_donors_aux seenEmails rest

def extract_unique_donors (pledges : List Pledge) : List Donor :=
  extract_unique_donors_aux [] pledges

structure Categorized where
  newDonors : List Donor
  existingDonors : List (Donor × Nat)
deriving DecidableEq, Repr

/-- The bucketing loop of categorize_darujme_donors (anabix.py lines 393-404):
a donor whose email resolves to a nonzero contact id is existing, otherwise
new (a contact id of 0 is falsy in Python). -/
def categorize_list (findContact : String → Option Nat) : List Donor → Categorized
  | [] => ⟨[], []⟩
  | d :: rest =>
    let r := categorize_list findContact rest
    match findContact (d.email.getD "") with
    | some cid =>
      if cid != 0 then ⟨r.newDonors, (d, cid) :: r.existingDonors⟩
      else ⟨d :: r.newDonors, r.existingDonors⟩
    | none => ⟨d :: r.newDonors, r.existingDonors⟩

/-- categorize_darujme_donors (anabix.py lines 360-406); findContact is the
CRM email lookup find_contact_by_email. -/
def categorize_darujme_donors (findContact : String → Option Nat)
    (pledges : List Pledge) : Categorized :=
  categorize_list findContact (extract_unique_donors pledges)

/-! ### anabix.py : create_contact -/

structure ShippingFields where
  shippingStreet : String
  shippingCity : String
  shippingCode : String
  shippingCountry : String
deriving DecidableEq, Repr

structure ContactData where
  email : String
  firstName : String
  lastName : String
  phoneNumber : String
  cellNumber : String
  organization : String
  gdprReason : Nat
  gdprAcceptanceDate : Option String
  shipping : Option ShippingFields
deriving DecidableEq, Repr

structure CreateContactOutcome where
  result : Option Nat
  apiCalled : Bool
  sentData : Option ContactData
deriving DecidableEq, Repr

/-- create_contact (anabix.py lines 408-493): validation fails (no id, no API
call) when email, first and last name are all empty; otherwise the contact
payload is assembled (the shipping block only when an address dict is given,
the GDPR date only when truthy) and the create endpoint called, returning
whatever contact id the response carries. -/
def create_contact (email firstName lastName phoneNumber cellNumber companyName : String)
    (shippingAddress : Option Address) (gdprReason : Nat)
    (gdprAcceptanceDate : Option String) (resp : Option Nat) : CreateContactOutcome :=
  if !(strTruthy firstName || strTruthy lastName || strTruthy email) then
    ⟨none, false, none⟩
  else
    ⟨resp, true, some
      ⟨email, firstName, lastName, phoneNumber, cellNumber, companyName, gdprReason,
        (match gdprAcceptanceDate with
          | some s => if strTruthy s then some s else none
          | none => none),
        (match shippingAddress with
          | some a => some ⟨a.street, a.city, a.postCode, a.country⟩
          | none => none)⟩⟩

/-- The shipping dict built in add_new_donors_to_list (anabix.py lines
536-542): present only when the donor's address is truthy. -/
def donor_shipping_dict (d : Donor) : Option Address :=
  match d.address with
  | some a => some ⟨a.street, a.city, a.postCode, a.country⟩
  | none => none

/-- The create_contact call in add_new_donors_to_list (anabix.py lines
527-543): the donor's phone doubles as the cell number and no GDPR date is
passed. -/
def create_contact_for_donor (d : Donor) (resp : Option Nat) : CreateContactOutcome :=
  create_contact (d.email.getD "") d.firstName d.lastName d.phone d.phone
    d.companyName (donor_shipping_dict d) 2 none resp

/-! ### anabix.py : deals -/

structure Deal where
  idDeal : Option Nat
deriving DecidableEq, Repr

structure DealData where
  title : String
  idContact : Nat
  body : String
  status : String
  idOwner : Option Nat
  amount : Option Int
  deadline : Option String
  completedDate : Option String
deriving DecidableEq, Repr

structure GetOrCreateDealOutcome where
  result : Option Nat
  createCalled : Bool
  createdData : Option DealData
deriving DecidableEq, Repr

/-- The deal payload assembled by create_deal (anabix.py lines 833-848):
idOwner only when truthy (nonzero), amount whenever not None, deadline and
completedDate only when truthy (nonempty). -/
def build_deal_data (title : String) (contactId : Nat) (body status : String)
    (ownerId : Option Nat) (amount : Option Int)
    (deadline completedDate : Option String) : DealData :=
  ⟨title, contactId, body, status,
    (match ownerId with
      | some o => if o != 0 then some o else none
      | none => none),
    amount,
    (match deadline with
      | some s => if strTruthy s then some s else none
      | none => none),
    (match completedDate with
      | some s => if strTruthy s then some s else none
      | none => none)⟩

/-- get_or_create_deal (anabix.py lines 874-911): existingDeals is the
get_deals_by_title response for the title; a nonempty response returns the
first deal's id without creating anything, otherwise create_deal is called
and createResp is the id the create response carries. -/
def get_or_create_deal (existingDeals : List Deal) (title : String) (contactId : Nat)
    (body status : String) (ownerId : Option Nat) (amount : Option Int)
    (deadline completedDate : Option String) (createResp : Option Nat) :
    GetOrCreateDealOutcome :=
  match existingDeals with
  | d :: _ => ⟨d.idDeal, false, none⟩
  | [] => ⟨createResp, true,
      some (build_deal_data title contactId body status ownerId amount deadline completedDate)⟩

/-! ### anabix.py : projects file and the per-pledge processing loop -/

structure Project where
  projectId : JsonKey
  titleCs : String
deriving DecidableEq, Repr

/-- Python dict lookup on an association list where a later binding for the
same key overwrites an earlier one. -/
def dictGet (m : List (JsonKey × String)) (k : JsonKey) : Option String :=
  (m.reverse.find? (fun kv => kv.1 == k)).map (fun kv => kv.2)

/-- read_darujme_projects (anabix.py lines 620-639): the mapping is keyed by
str(projectId) and valued by the Czech title. -/
def read_darujme_projects (projects : List Project) : List (JsonKey × String) :=
  projects.map (fun p => (JsonKey.str p.projectId.toPyStr, p.titleCs))

/-- The CRM responses a single pass of the processing loop can observe. -/
structure CrmEnv where
  findContact : String → Option Nat
  createContactResp : Option Nat
  dealsByTitle : String → List Deal
  createDealResp : Option Nat
  activitiesFor : Nat → Nat → List Activity
  createActivityResp : Option Nat

/-- The per-pledge error messages of process_darujme_donors. -/
inductive ProcErr where
  | missingData (pledgeId : Nat)
  | contactFailed (email : String)
  | dealFailed (title : String)
  | exceptionMsg (msg : String)
deriving DecidableEq, Repr

/-- The contact step of the loop (anabix.py lines 695-711): reuse a truthy
found id (counting an existing donor), otherwise call create_contact (with
empty cell/company, no shipping, GDPR reason 2) and count a new donor when
the returned id is truthy. -/
structure ContactResolution where
  contactId : Option Nat
  newCount : Nat
  existingCount : Nat
  createCalled : Bool
deriving DecidableEq, Repr

def contact_resolution (env : CrmEnv) (pledge : Pledge) (email : String) :
    ContactResolution :=
  let found := env.findContact email
  if !(optNatTruthy found) then
    let c := create_contact email pledge.donor.firstName pledge.donor.lastName
      pledge.donor.phone "" "" none 2 none env.createContactResp
    ⟨c.result, if optNatTruthy c.result then 1 else 0, 0, true⟩
  else ⟨found, 0, 1, false⟩

/-- The deal step of the loop (anabix.py line 721): get_or_create_deal with
only title and contact supplied. -/
def deal_resolution (env : CrmEnv) (title : String) (contactId : Nat) :
    GetOrCreateDealOutcome :=
  get_or_create_deal (env.dealsByTitle title) title contactId "" "open"
    none none none none env.createDealResp

/-- What one iteration of the per-pledge loop contributes to the run summary,
plus which CRM endpoints it invoked. -/
structure StepResult where
  errors : List ProcErr
  newDonors : Nat
  existingDonors : Nat
  activitiesCreated : Nat
  processedPledges : Nat
  contactCreateCalled : Bool
  addToListCalled : Bool
  dealCreateCalled : Bool
  activityCreateCalled : Bool
deriving DecidableEq, Repr

/-- The body of the per-pledge loop of process_darujme_donors (anabix.py
lines 684-744): missing donor email or project title records a missing-data
error and skips; a failed contact or deal resolution records an error and
skips; an exception from the activity step is caught and recorded; otherwise
the pledge counts as processed and a truthy activity id increments the
activities-created count. -/
def process_darujme_donors_step (env : CrmEnv) (projects : List (JsonKey × String))
    (pledge : Pledge) : StepResult :=
  let donorEmail := pledge.donor.email
  let projectTitle := dictGet projects pledge.projectId
  if !(optStrTruthy donorEmail && optStrTruthy projectTitle) then
    ⟨[ProcErr.missingData pledge.pledgeId], 0, 0, 0, 0, false, false, false, false⟩
  else
    let cr := contact_resolution env pledge (donorEmail.getD "")
    if !(optNatTruthy cr.contactId) then
      ⟨[ProcErr.contactFailed (donorEmail.getD "")], cr.newCount, cr.existingCount,
        0, 0, cr.createCalled, false, false, false⟩
    else
      let dealOut := deal_resolution env (projectTitle.getD "") (cr.contactId.getD 0)
      if !(optNatTruthy dealOut.result) then
        ⟨[ProcErr.dealFailed (projectTitle.getD "")], cr.newCount, cr.existingCount,
          0, 0, cr.createCalled, true, dealOut.createCalled, false⟩
      else
        match create_darujme_pledge_activity pledge true
            (env.activitiesFor (cr.contactId.getD 0) (dealOut.result.getD 0))
            env.createActivityResp with
        | Except.error msg =>
          ⟨[ProcErr.exceptionMsg msg], cr.newCount, cr.existingCount,
            0, 0, cr.createCalled, true, dealOut.createCalled, false⟩
        | Except.ok out =>
          ⟨[], cr.newCount, cr.existingCount,
            (if optNatTruthy out.result then 1 else 0), 1,
            cr.createCalled, true, dealOut.createCalled, out.createCalled⟩

/-! ### Concrete fixtures for witnesses and counterexamples -/

def donorUpper : Donor :=
  ⟨some "Jana.Novakova@example.cz", "Jana", "Novakova", "", "", none⟩

def donorLower : Donor :=
  ⟨some "jana.novakova@example.cz", "Jana", "Novakova", "", "", none⟩

def pledgeUpper : Pledge :=
  ⟨1, JsonKey.int 100, "2025-01-02T03:04:05+01:00", donorUpper, [⟨"success", 10000, 9500⟩]⟩

def pledgeLower : Pledge :=
  ⟨2, JsonKey.int 100, "2025-01-03T03:04:05+01:00", donorLower, [⟨"success", 10000, 9500⟩]⟩

def donorW2 : Donor := ⟨some "w2@example.cz", "Alena", "Bila", "", "", none⟩

def pledgeW2 : Pledge :=
  ⟨11, JsonKey.str "200", "2025-03-10T12:00:00+01:00", donorW2, [⟨"success", 50000, 49000⟩]⟩

def activityW2 : Activity :=
  ⟨501, "Dar přes Darujme.cz - 500 Kč (import)", 1741600000⟩

def envFixture : CrmEnv :=
  ⟨fun _ => some 5, some 6, fun _ => [⟨some 9⟩], some 10, fun _ _ => [], some 11⟩

def projectsFixture : List (JsonKey × String) := [(JsonKey.str "300", "Obecne dary")]

def pledgeNoEmailNoTx : Pledge :=
  ⟨7, JsonKey.str "300", "2025-01-02T03:04:05+01:00",
    ⟨none, "Petr", "Maly", "", "", none⟩, [⟨"pending", 1000, 900⟩]⟩

def pledgePendingTx : Pledge :=
  ⟨22, JsonKey.str "300", "2025-02-01T10:00:00+01:00",
    ⟨some "petr@example.cz", "Petr", "Maly", "", "", none⟩, [⟨"pending", 20000, 19000⟩]⟩

def pledgeNoEmail : Pledge :=
  ⟨21, JsonKey.str "300", "2025-02-01T10:00:00+01:00",
    ⟨none, "Petr", "Maly", "", "", none⟩, [⟨"success", 20000, 19000⟩]⟩

def projectFixture : Project := ⟨JsonKey.int 300, "Obecne dary"⟩

def pledgeIntProject : Pledge :=
  ⟨23, JsonKey.int 300, "2025-02-01T10:00:00+01:00",
    ⟨some "petr@example.cz", "Petr", "Maly", "", "", none⟩, [⟨"success", 20000, 19000⟩]⟩

def addressFixture : Address := ⟨"Dlouha 12", "Praha", "11000", "CZ"⟩

/-! ### Theorems -/

/-- Claim C4: filter_successful_pledges keeps a pledge if and only if at least
one of its transactions has state in the successful set {success,
success_money_on_account, sent_to_organization}; a falsy input document or one
lacking the top-level pledges key yields an empty pledges list. -/
theorem filter_successful_pledges_spec :
    (∀ (l : List Pledge) (p : Pledge),
        p ∈ filter_successful_pledges (some (some l)) ↔
          p ∈ l ∧ ∃ t ∈ p.transactions, t.state ∈ successfulStates) ∧
    filter_successful_pledges none = [] ∧
    filter_successful_pledges (some none) = [] := by
  refine ⟨?_, rfl, rfl⟩
  intro l p
  simp [filter_successful_pledges, pledgeSuccessful, List.mem_filter, List.any_eq_true]

/-- Witness instantiating the C4 theorem at the falsy input document. -/
theorem filter_successful_pledges_spec_witness :
    filter_successful_pledges none = [] :=
  filter_successful_pledges_spec.2.1

/-- Claim C5 counterexample: the token "WEEK" is neither the literal token
"week" nor "year" nor a digit string, yet get_date_range succeeds with the
date 7 days back instead of raising the fatal input error the claim demands
(the code compares the lower-cased token). -/
theorem get_date_range_case_counterexample :
    get_date_range 0 "WEEK" = Except.ok (0 - 7) ∧
    "WEEK" ≠ "week" ∧ "WEEK" ≠ "year" ∧ pyIsDigitStr "WEEK" = false := by
  exact ⟨rfl, by decide, by decide, by decide⟩

/-- Claim C5 (amended): get_date_range resolves a token whose lower-casing is
"week" to 7 days back, one whose lower-casing is "year" to 365 days back, and
a digit string to that many days back; it raises a fatal input error, and
returns no date, exactly when the lower-cased token is neither "week" nor
"year" and the token is not a digit string. -/
theorem get_date_range_spec (today : Int) (tf : String) :
    (pyToLower tf = "week" → get_date_range today tf = Except.ok (today - 7)) ∧
    (pyToLower tf = "year" → get_date_range today tf = Except.ok (today - 365)) ∧
    (pyToLower tf ≠ "week" → pyToLower tf ≠ "year" → pyIsDigitStr tf = true →
        get_date_range today tf = Except.ok (today - strToNat tf)) ∧
    ((∃ msg, get_date_range today tf = Except.error msg) ↔
        (pyToLower tf ≠ "week" ∧ pyToLower tf ≠ "year" ∧ pyIsDigitStr tf = false)) := by
  unfold get_date_range
  by_cases hw : pyToLower tf = "week"
  · simp [hw]
  · by_cases hy : pyToLower tf = "year"
    · simp [hw, hy]
    · cases hd : pyIsDigitStr tf
      · simp [hw, hy, hd]
      · simp [hw, hy, hd]

/-- Witness for the amended C5 theorem at the concrete token "30". -/
theorem get_date_range_spec_witness :
    get_date_range 100 "30" = Except.ok (100 - strToNat "30") :=
  (get_date_range_spec 100 "30").2.2.1 (by decide) (by decide) (by decide)

/-- Claim C6: sent and outgoing amounts are the minor-unit cents divided by
100 and rounded to a nearest whole unit (so no other whole unit is strictly
closer), with 12345 cents giving 123 and the 50-cent midpoint 150 giving 2. -/
theorem amount_czk_spec :
    amount_czk 12345 = 123 ∧ amount_czk 150 = 2 ∧
      ∀ cents m : Nat,
        ((100 * (amount_czk cents : Int)) - (cents : Int)).natAbs ≤
          ((100 * (m : Int)) - (cents : Int)).natAbs := by
  refine ⟨by decide, by decide, ?_⟩
  intro c m
  unfold amount_czk
  split_ifs <;> omega

/-- Witness instantiating the C6 theorem at the pinned example 12345. -/
theorem amount_czk_spec_witness : amount_czk 12345 = 123 :=
  amount_czk_spec.1

/-- Claim C3: get_or_create_deal returns the first deal's id and creates
nothing when the title lookup response is nonempty; on an empty response it
creates exactly one deal whose payload carries the given title and contact,
with each of the optional owner, amount, deadline and completion-date fields
present in the creation payload only when the corresponding argument was
supplied. -/
theorem get_or_create_deal_spec (deals : List Deal) (title : String) (cid : Nat)
    (body status : String) (ownerId : Option Nat) (amount : Option Int)
    (deadline completedDate : Option String) (resp : Option Nat) :
    (∀ d rest, deals = d :: rest →
        get_or_create_deal deals title cid body status ownerId amount deadline
            completedDate resp = ⟨d.idDeal, false, none⟩) ∧
    (deals = [] →
        ∃ dd, get_or_create_deal deals title cid body status ownerId amount deadline
              completedDate resp = ⟨resp, true, some dd⟩ ∧
          dd.title = title ∧ dd.idContact = cid ∧
          (dd.idOwner.isSome = true → ownerId.isSome = true) ∧
          (dd.amount.isSome = true → amount.isSome = true) ∧
          (dd.deadline.isSome = true → deadline.isSome = true) ∧
          (dd.completedDate.isSome = true → completedDate.isSome = true)) := by
  constructor
  · rintro d rest rfl
    rfl
  · rintro rfl
    refine ⟨build_deal_data title cid body status ownerId amount deadline completedDate,
      rfl, rfl, rfl, ?_, ?_, ?_, ?_⟩
    · cases ownerId with
      | none => simp [build_deal_data]
      | some o => intro _; rfl
    · cases amount with
      | none => simp [build_deal_data]
      | some a => intro _; rfl
    · cases deadline with
      | none => simp [build_deal_data]
      | some s => intro _; rfl
    · cases completedDate with
      | none => simp [build_deal_data]
      | some s => intro _; rfl

/-- Witness for the C3 theorem: one deal in the response returns its id with
no creation; an empty response creates a deal with the title and contact. -/
theorem get_or_create_deal_spec_witness :
    get_or_create_deal [⟨some 7⟩] "Projekt" 3 "" "open" none none none none (some 8) =
      ⟨some 7, false, none⟩ ∧
    (∃ dd, get_or_create_deal [] "Projekt" 3 "" "open" none none none none (some 8) =
        ⟨some 8, true, some dd⟩ ∧
      dd.title = "Projekt" ∧ dd.idContact = 3 ∧
      (dd.idOwner.isSome = true → (none : Option Nat).isSome = true) ∧
      (dd.amount.isSome = true → (none : Option Int).isSome = true) ∧
      (dd.deadline.isSome = true → (none : Option String).isSome = true) ∧
      (dd.completedDate.isSome = true → (none : Option String).isSome = true)) :=
  ⟨(get_or_create_deal_spec [⟨some 7⟩] "Projekt" 3 "" "open" none none none none
      (some 8)).1 ⟨some 7⟩ [] rfl,
    (get_or_create_deal_spec [] "Projekt" 3 "" "open" none none none none
      (some 8)).2 rfl⟩

/-- Claim C8 counterexample: with a failing CRM create response, create_contact
returns no contact id even though the email is present, so "returns no contact
id exactly when email, first name and last name are all absent" fails in the
only-if direction. -/
theorem create_contact_counterexample :
    (create_contact "a@b.cz" "" "" "" "" "" none 2 none none).result = none ∧
    strTruthy "a@b.cz" = true := by
  exact ⟨rfl, by decide⟩

/-- Claim C8 (amended): create_contact skips the CRM call and returns no id
exactly when email, first name and last name are all empty; otherwise it calls
the create endpoint and returns precisely the id the response carries (so a
failed response also yields no id); the shipping-address block is omitted from
the contact data exactly when no address is supplied, and a supplied address's
street, city, postal code and country map to the CRM shipping fields, as does
the address dict built from a donor in add_new_donors_to_list. -/
theorem create_contact_spec (email firstName lastName phone cell company : String)
    (shipping : Option Address) (gdprReason : Nat) (gdprDate : Option String)
    (resp : Option Nat) :
    ((strTruthy firstName || strTruthy lastName || strTruthy email) = false →
        create_contact email firstName lastName phone cell company shipping
            gdprReason gdprDate resp = ⟨none, false, none⟩) ∧
    ((strTruthy firstName || strTruthy lastName || strTruthy email) = true →
        ∃ cd, create_contact email firstName lastName phone cell company shipping
              gdprReason gdprDate resp = ⟨resp, true, some cd⟩ ∧
          (shipping = none → cd.shipping = none) ∧
          (∀ a, shipping = some a →
              cd.shipping = some ⟨a.street, a.city, a.postCode, a.country⟩)) ∧
    (∀ d : Donor, d.address = none → donor_shipping_dict d = none) ∧
    (∀ (d : Donor) (a : Address), d.address = some a →
        donor_shipping_dict d = some ⟨a.street, a.city, a.postCode, a.country⟩) := by
  refine ⟨?_, ?_, ?_, ?_⟩
  · intro h
    unfold create_contact
    rw [h]
    rfl
  · intro h
    unfold create_contact
    rw [h]
    refine ⟨_, rfl, ?_, ?_⟩
    · rintro rfl
      rfl
    · rintro a rfl
      rfl
  · intro d hd
    unfold donor_shipping_dict
    rw [hd]
  · intro d a hd
    unfold donor_shipping_dict
    rw [hd]

/-- Witness for the amended C8 theorem: all-empty identity gives a silent
failure; a donor with an address gets the mapped shipping block. -/
theorem create_contact_spec_witness :
    create_contact "" "" "" "" "" "" (some addressFixture) 2 none (some 4) =
      ⟨none, false, none⟩ ∧
    (∃ cd, create_contact "a@b.cz" "" "" "" "" "" (some addressFixture) 2 none (some 4) =
        ⟨some 4, true, some cd⟩ ∧
      ((some addressFixture : Option Address) = none → cd.shipping = none) ∧
      (∀ a, (some addressFixture : Option Address) = some a →
          cd.shipping = some ⟨a.street, a.city, a.postCode, a.country⟩)) :=
  ⟨(create_contact_spec "" "" "" "" "" "" (some addressFixture) 2 none (some 4)).1
      (by decide),
    ((create_contact_spec "a@b.cz" "" "" "" "" "" (some addressFixture) 2 none
      (some 4)).2.1 (by decide)).imp (fun cd h => ⟨h.1, h.2.1, h.2.2⟩)⟩

/-- Claim C2: for a pledge with a successful transaction, when duplicate
checking is enabled and, among the existing activities for the same contact
and deal whose timestamp is on or after the pledge's calendar date, some
activity's body contains the computed "Dar přes Darujme.cz - <sent_amount> Kč"
string as a substring, create_darujme_pledge_activity returns no activity id
and never calls the create-activity endpoint. -/
theorem create_darujme_pledge_activity_duplicate_guard
    (pledge : Pledge) (t : Transaction) (existing : List Activity)
    (resp : Option Nat) (dt : DateTime)
    (htx : find_successful_transaction pledge = some t)
    (hparse : strptime_datetime (stripUtcOffset pledge.pledgedAt) = some dt)
    (hdup : ∃ a ∈ existing, dt.midnightTimestamp ≤ a.timestamp ∧
        strContains a.body (pledge_activity_body (amount_czk t.sentAmountCents)) = true) :
    create_darujme_pledge_activity pledge true existing resp =
      Except.ok ⟨none, true, false, none⟩ := by
  have hany : (get_activities_by_contact_and_deal existing (some dt)).any
      (fun a => strContains a.body
        (pledge_activity_body (amount_czk t.sentAmountCents))) = true := by
    obtain ⟨a, ha, hts, hc⟩ := hdup
    refine List.any_eq_true.mpr ⟨a, ?_, hc⟩
    exact List.mem_filter.mpr ⟨ha, by simpa using hts⟩
  unfold create_darujme_pledge_activity
  simp only [htx, hparse]
  simp [hany]

/-- Witness for the C2 theorem: a pledge of 50000 cents (body amount 500 Kč)
against an existing later activity whose body contains that body string. -/
theorem create_darujme_pledge_activity_duplicate_guard_witness :
    create_darujme_pledge_activity pledgeW2 true [activityW2] (some 99) =
      Except.ok ⟨none, true, false, none⟩ :=
  create_darujme_pledge_activity_duplicate_guard pledgeW2 ⟨"success", 50000, 49000⟩
    [activityW2] (some 99) ⟨2025, 3, 10, 12, 0, 0⟩ rfl rfl
    ⟨activityW2, List.mem_singleton.mpr rfl, by decide, by decide⟩

/-- Claim C7 counterexample: a pledge with no successful transaction whose
donor also lacks an email makes the per-pledge loop record a missing-data
error, refuting "the per-pledge processing loop records no error for that
pledge". -/
theorem no_successful_transaction_counterexample :
    find_successful_transaction pledgeNoEmailNoTx = none ∧
    (process_darujme_donors_step envFixture projectsFixture pledgeNoEmailNoTx).errors =
      [ProcErr.missingData 7] := by
  exact ⟨rfl, rfl⟩

/-- Claim C7 (amended): for a pledge with no transaction in the
successful-state set, create_darujme_pledge_activity returns no activity id
without querying activities or calling the create endpoint; and the
per-pledge loop records no error for the pledge provided its donor email and
project title are present and the contact and deal steps resolve to truthy
ids — it then counts the pledge as processed with no activity created. -/
theorem no_successful_transaction_spec (env : CrmEnv)
    (projects : List (JsonKey × String)) (pledge : Pledge)
    (htx : find_successful_transaction pledge = none)
    (hemail : optStrTruthy pledge.donor.email = true)
    (htitle : optStrTruthy (dictGet projects pledge.projectId) = true)
    (hcontact : optNatTruthy
      (contact_resolution env pledge (pledge.donor.email.getD "")).contactId = true)
    (hdeal : optNatTruthy (deal_resolution env
        ((dictGet projects pledge.projectId).getD "")
        ((contact_resolution env pledge
          (pledge.donor.email.getD "")).contactId.getD 0)).result = true) :
    (∀ (cd : Bool) (existing : List Activity) (resp : Option Nat),
        create_darujme_pledge_activity pledge cd existing resp =
          Except.ok ⟨none, false, false, none⟩) ∧
    (process_darujme_donors_step env projects pledge).errors = [] ∧
    (process_darujme_donors_step env projects pledge).activityCreateCalled = false ∧
    (process_darujme_donors_step env projects pledge).activitiesCreated = 0 ∧
    (process_darujme_donors_step env projects pledge).processedPledges = 1 := by
  have hact : ∀ (cd : Bool) (existing : List Activity) (resp : Option Nat),
      create_darujme_pledge_activity pledge cd existing resp =
        Except.ok ⟨none, false, false, none⟩ := by
    intro cd existing resp
    unfold create_darujme_pledge_activity
    rw [htx]
  have hstep : process_darujme_donors_step env projects pledge =
      ⟨[], (contact_resolution env pledge (pledge.donor.email.getD "")).newCount,
        (contact_resolution env pledge (pledge.donor.email.getD "")).existingCount,
        0, 1,
        (contact_resolution env pledge (pledge.donor.email.getD "")).createCalled,
        true,
        (deal_resolution env ((dictGet projects pledge.projectId).getD "")
          ((contact_resolution env pledge
            (pledge.donor.email.getD "")).contactId.getD 0)).createCalled,
        false⟩ := by
    have hnone : optNatTruthy none = false := rfl
    unfold process_darujme_donors_step
    simp [hemail, htitle, hcontact, hdeal, hact, hnone]
  exact ⟨hact, by rw [hstep], by rw [hstep], by rw [hstep], by rw [hstep]⟩

/-- Witness for the amended C7 theorem on a concrete pending-only pledge with
a resolvable contact and deal. -/
theorem no_successful_transaction_spec_witness :
    (process_darujme_donors_step envFixture projectsFixture pledgePendingTx).errors = [] ∧
    (process_darujme_donors_step envFixture projectsFixture
      pledgePendingTx).activityCreateCalled = false :=
  ⟨(no_successful_transaction_spec envFixture projectsFixture pledgePendingTx
      rfl (by decide) (by decide) (by decide) (by decide)).2.1,
    (no_successful_transaction_spec envFixture projectsFixture pledgePendingTx
      rfl (by decide) (by decide) (by decide) (by decide)).2.2.1⟩

/-- Every donor emitted by the unique-extraction loop is the donor of some
input pledge and carries a truthy email. -/
theorem extract_unique_donors_aux_mem (pledges : List Pledge) :
    ∀ (seen : List String) (d : Donor), d ∈ extract_unique_donors_aux seen pledges →
      (∃ p ∈ pledges, p.donor = d) ∧ optStrTruthy d.email = true := by
  induction pledges with
  | nil =>
    intro seen d hd
    simp [extract_unique_donors_aux] at hd
  | cons p rest ih =>
    intro seen d hd
    cases hp : p.donor.email with
    | none =>
      simp only [extract_unique_donors_aux, hp] at hd
      obtain ⟨⟨q, hq, hqd⟩, ht⟩ := ih seen d hd
      exact ⟨⟨q, List.mem_cons_of_mem _ hq, hqd⟩, ht⟩
    | some e =>
      simp only [extract_unique_donors_aux, hp] at hd
      by_cases hc : (e != "" && !(seen.contains e)) = true
      · rw [if_pos hc] at hd
        rcases List.mem_cons.mp hd with h | h
        · subst h
          rw [Bool.and_eq_true] at hc
          have hne : e ≠ "" := by simpa using hc.1
          have hF : e.isEmpty = false := by
            cases h2 : e.isEmpty with
            | false => rfl
            | true => exact absurd ((String.isEmpty_iff e).mp h2) hne
          refine ⟨⟨p, List.mem_cons_self _ _, rfl⟩, ?_⟩
          simp [optStrTruthy, strTruthy, hp, hF]
        · obtain ⟨⟨q, hq, hqd⟩, ht⟩ := ih (e :: seen) d h
          exact ⟨⟨q, List.mem_cons_of_mem _ hq, hqd⟩, ht⟩
      · rw [if_neg hc] at hd
        obtain ⟨⟨q, hq, hqd⟩, ht⟩ := ih seen d hd
        exact ⟨⟨q, List.mem_cons_of_mem _ hq, hqd⟩, ht⟩

/-- Looking up a nonempty, not-yet-seen email among the extracted unique
donors returns exactly the donor of the first pledge whose donor carries that
exact email string. -/
theorem extract_unique_donors_aux_find (pledges : List Pledge) :
    ∀ (seen : List String) (e : String), e ≠ "" → e ∉ seen →
      (extract_unique_donors_aux seen pledges).find? (fun d => d.email == some e) =
        (pledges.find? (fun p => p.donor.email == some e)).map Pledge.donor := by
  induction pledges with
  | nil =>
    intro seen e he hs
    rfl
  | cons p rest ih =>
    intro seen e he hs
    cases hp : p.donor.email with
    | none =>
      have htest : ((none : Option String) == some e) = false := by simp
      simp only [extract_unique_donors_aux, hp, List.find?_cons, htest]
      exact ih seen e he hs
    | some e2 =>
      by_cases hc : (e2 != "" && !(seen.contains e2)) = true
      · by_cases hee : e2 = e
        · subst hee
          have htest : ((some e2 : Option String) == some e2) = true := by simp
          simp only [extract_unique_donors_aux, hp, if_pos hc, List.find?_cons, htest]
          rfl
        · have htest : ((some e2 : Option String) == some e) = false := by simp [hee]
          simp only [extract_unique_donors_aux, hp, if_pos hc, List.find?_cons, htest]
          refine ih (e2 :: seen) e he ?_
          intro hmem
          rcases List.mem_cons.mp hmem with h | h
          · exact hee h.symm
          · exact hs h
      · have hee : e2 ≠ e := by
          intro h
          rw [Bool.and_eq_true] at hc
          have hA : (e2 != "") = true := by simp [h, he]
          exact hc ⟨hA, by simpa [h] using hs⟩
        have htest : ((some e2 : Option String) == some e) = false := by simp [hee]
        simp only [extract_unique_donors_aux, hp, if_neg hc, List.find?_cons, htest]
        exact ih seen e he hs

/-- The extracted unique donors carry pairwise distinct email values, none of
which occur in the already-seen set. -/
theorem extract_unique_donors_aux_nodup (pledges : List Pledge) :
    ∀ seen : List String,
      ((extract_unique_donors_aux seen pledges).map Donor.email).Nodup ∧
      (∀ d ∈ extract_unique_donors_aux seen pledges,
        ∀ e, d.email = some e → e ∉ seen) := by
  induction pledges with
  | nil =>
    intro seen
    simp [extract_unique_donors_aux]
  | cons p rest ih =>
    intro seen
    cases hp : p.donor.email with
    | none =>
      simpa only [extract_unique_donors_aux, hp] using ih seen
    | some e =>
      by_cases hc : (e != "" && !(seen.contains e)) = true
      · simp only [extract_unique_donors_aux, hp, if_pos hc]
        obtain ⟨hnd, hnin⟩ := ih (e :: seen)
        constructor
        · refine List.nodup_cons.mpr ⟨?_, hnd⟩
          intro hmem
          rcases List.mem_map.mp hmem with ⟨d, hd, hde⟩
          rw [hp] at hde
          exact (hnin d hd e hde) (List.mem_cons_self _ _)
        · intro d hd e2 he2
          rcases List.mem_cons.mp hd with h | h
          · subst h
            rw [hp] at he2
            have he2e : e = e2 := by injection he2
            subst he2e
            rw [Bool.and_eq_true] at hc
            have : seen.contains e = false := by simpa using hc.2
            simpa using this
          · intro hin
            exact hnin d h e2 he2 (List.mem_cons_of_mem _ hin)
      · simp only [extract_unique_donors_aux, hp, if_neg hc]
        exact ih seen

/-- Every donor in the new bucket comes from the categorized input list. -/
theorem categorize_list_mem_new (f : String → Option Nat) (l : List Donor) :
    ∀ d ∈ (categorize_list f l).newDonors, d ∈ l := by
  induction l with
  | nil =>
    intro d hd
    simp [categorize_list] at hd
  | cons x xs ih =>
    intro d hd
    cases hf : f (x.email.getD "") with
    | none =>
      simp only [categorize_list, hf] at hd
      rcases List.mem_cons.mp hd with h | h
      · subst h
        exact List.mem_cons_self _ _
      · exact List.mem_cons_of_mem _ (ih d h)
    | some cid =>
      by_cases hcid : (cid != 0) = true
      · simp only [categorize_list, hf, if_pos hcid] at hd
        exact List.mem_cons_of_mem _ (ih d hd)
      · simp only [categorize_list, hf, if_neg hcid] at hd
        rcases List.mem_cons.mp hd with h | h
        · subst h
          exact List.mem_cons_self _ _
        · exact List.mem_cons_of_mem _ (ih d h)

/-- Every donor in the existing bucket comes from the categorized input list. -/
theorem categorize_list_mem_existing (f : String → Option Nat) (l : List Donor) :
    ∀ (d : Donor) (cid : Nat), (d, cid) ∈ (categorize_list f l).existingDonors → d ∈ l := by
  induction l with
  | nil =>
    intro d cid hd
    simp [categorize_list] at hd
  | cons x xs ih =>
    intro d cid hd
    cases hf : f (x.email.getD "") with
    | none =>
      simp only [categorize_list, hf] at hd
      exact List.mem_cons_of_mem _ (ih d cid hd)
    | some c =>
      by_cases hcid : (c != 0) = true
      · simp only [categorize_list, hf, if_pos hcid] at hd
        rcases List.mem_cons.mp hd with h | h
        · injection h with h1 h2
          subst h1
          exact List.mem_cons_self _ _
        · exact List.mem_cons_of_mem _ (ih d cid h)
      · simp only [categorize_list, hf, if_neg hcid] at hd
        exact List.mem_cons_of_mem _ (ih d cid hd)

/-- The two buckets together classify every unique donor exactly once. -/
theorem categorize_list_length (f : String → Option Nat) (l : List Donor) :
    (categorize_list f l).newDonors.length + (categorize_list f l).existingDonors.length =
      l.length := by
  induction l with
  | nil => rfl
  | cons x xs ih =>
    cases hf : f (x.email.getD "") with
    | none =>
      simp only [categorize_list, hf, List.length_cons]
      omega
    | some cid =>
      by_cases hcid : (cid != 0) = true
      · simp only [categorize_list, hf, if_pos hcid, List.length_cons]
        omega
      · simp only [categorize_list, hf, if_neg hcid, List.length_cons]
        omega

/-- A projects mapping keyed by string forms never answers an integer key. -/
theorem dictGet_read_projects_int (l : List Project) (n : Int) :
    dictGet (read_darujme_projects l) (JsonKey.int n) = none := by
  unfold dictGet
  rw [Option.map_eq_none']
  rw [List.find?_eq_none]
  intro kv hkv
  rw [List.mem_reverse] at hkv
  unfold read_darujme_projects at hkv
  rcases List.mem_map.mp hkv with ⟨p, hp, hkveq⟩
  subst hkveq
  simp

/-- Claim C9: a pledge whose donor record carries no (truthy) email is never
reconciled and never recorded: its donor appears in neither categorization
bucket, and the per-pledge loop only records a missing-data error, creating
no contact, deal, or activity and making no list addition. -/
theorem no_email_pledge_spec (f : String → Option Nat) (pledges : List Pledge)
    (env : CrmEnv) (projects : List (JsonKey × String)) (pledge : Pledge)
    (hemail : optStrTruthy pledge.donor.email = false) :
    pledge.donor ∉ (categorize_darujme_donors f pledges).newDonors ∧
    (∀ cid, (pledge.donor, cid) ∉ (categorize_darujme_donors f pledges).existingDonors) ∧
    process_darujme_donors_step env projects pledge =
      ⟨[ProcErr.missingData pledge.pledgeId], 0, 0, 0, 0, false, false, false, false⟩ := by
  have htr : ∀ d ∈ extract_unique_donors pledges, optStrTruthy d.email = true :=
    fun d hd => (extract_unique_donors_aux_mem pledges [] d hd).2
  refine ⟨?_, ?_, ?_⟩
  · intro hmem
    unfold categorize_darujme_donors at hmem
    have := htr _ (categorize_list_mem_new f _ _ hmem)
    rw [hemail] at this
    exact Bool.false_ne_true this
  · intro cid hmem
    unfold categorize_darujme_donors at hmem
    have := htr _ (categorize_list_mem_existing f _ _ cid hmem)
    rw [hemail] at this
    exact Bool.false_ne_true this
  · unfold process_darujme_donors_step
    simp [hemail]

/-- Witness for the C9 theorem at a concrete email-less pledge. -/
theorem no_email_pledge_spec_witness :
    pledgeNoEmail.donor ∉
      (categorize_darujme_donors (fun _ => none) [pledgeNoEmail]).newDonors ∧
    process_darujme_donors_step envFixture projectsFixture pledgeNoEmail =
      ⟨[ProcErr.missingData 21], 0, 0, 0, 0, false, false, false, false⟩ :=
  ⟨(no_email_pledge_spec (fun _ => none) [pledgeNoEmail] envFixture projectsFixture
      pledgeNoEmail rfl).1,
    (no_email_pledge_spec (fun _ => none) [pledgeNoEmail] envFixture projectsFixture
      pledgeNoEmail rfl).2.2⟩

/-- Claim C10: read_darujme_projects keys the title mapping by the string
form of each projectId while the loop looks titles up with the pledge's raw
projectId, so a pledge whose projectId is an integer never finds a title:
the lookup yields nothing, the loop records a missing-data error for the
pledge, and no contact, deal, or activity is created for it. -/
theorem project_id_type_mismatch_spec (env : CrmEnv) (projectsList : List Project)
    (pledge : Pledge) (n : Int) (hpid : pledge.projectId = JsonKey.int n) :
    dictGet (read_darujme_projects projectsList) pledge.projectId = none ∧
    process_darujme_donors_step env (read_darujme_projects projectsList) pledge =
      ⟨[ProcErr.missingData pledge.pledgeId], 0, 0, 0, 0, false, false, false, false⟩ := by
  have hnone : dictGet (read_darujme_projects projectsList) pledge.projectId = none := by
    rw [hpid]
    exact dictGet_read_projects_int projectsList n
  refine ⟨hnone, ?_⟩
  unfold process_darujme_donors_step
  simp [hnone, optStrTruthy]

/-- Witness for the C10 theorem: the snapshot-style integer projectId 300
misses the string-keyed title mapping built from the same project. -/
theorem project_id_type_mismatch_spec_witness :
    process_darujme_donors_step envFixture (read_darujme_projects [projectFixture])
        pledgeIntProject =
      ⟨[ProcErr.missingData 23], 0, 0, 0, 0, false, false, false, false⟩ :=
  (project_id_type_mismatch_spec envFixture [projectFixture] pledgeIntProject 300 rfl).2

/-- Claim C1 counterexample: two pledges whose donor emails differ only in
letter case produce two unique donors and two new-bucket entries, so the
deduplication key of categorize_darujme_donors is the exact email, not the
lower-cased email, and such pledges do not contribute a single donor. -/
theorem categorize_darujme_donors_case_counterexample :
    pyToLower (donorUpper.email.getD "") = pyToLower (donorLower.email.getD "") ∧
    donorUpper.email ≠ donorLower.email ∧
    extract_unique_donors [pledgeUpper, pledgeLower] = [donorUpper, donorLower] ∧
    (categorize_darujme_donors (fun _ => none)
      [pledgeUpper, pledgeLower]).newDonors.length = 2 := by
  exact ⟨by decide, by decide, rfl, rfl⟩

/-- Claim C1 (amended): deduplication is keyed by the exact email string
(case-sensitive): looking up any nonempty email among the unique donors
returns the donor record of the first pledge carrying exactly that email
(first-seen record wins), the unique donors' emails are pairwise distinct,
and categorize_darujme_donors buckets each unique donor exactly once. -/
theorem categorize_darujme_donors_dedup (findContact : String → Option Nat)
    (pledges : List Pledge) (e : String) (he : e ≠ "") :
    ((extract_unique_donors pledges).find? (fun d => d.email == some e) =
        (pledges.find? (fun p => p.donor.email == some e)).map Pledge.donor) ∧
    ((extract_unique_donors pledges).map Donor.email).Nodup ∧
    ((categorize_darujme_donors findContact pledges).newDonors.length +
        (categorize_darujme_donors findContact pledges).existingDonors.length =
      (extract_unique_donors pledges).length) := by
  refine ⟨extract_unique_donors_aux_find pledges [] e he (by simp), ?_, ?_⟩
  · exact (extract_unique_donors_aux_nodup pledges []).1
  · unfold categorize_darujme_donors
    exact categorize_list_length findContact _

/-- Witness for the amended C1 theorem on the two case-variant pledges. -/
theorem categorize_darujme_donors_dedup_witness :
    ((extract_unique_donors [pledgeUpper, pledgeLower]).find?
        (fun d => d.email == some "jana.novakova@example.cz") =
      (([pledgeUpper, pledgeLower]).find?
          (fun p => p.donor.email == some "jana.novakova@example.cz")).map
        Pledge.donor) ∧
    ((extract_unique_donors [pledgeUpper, pledgeLower]).map Donor.email).Nodup ∧
    ((categorize_darujme_donors (fun _ => none)
          [pledgeUpper, pledgeLower]).newDonors.length +
        (categorize_darujme_donors (fun _ => none)
          [pledgeUpper, pledgeLower]).existingDonors.length =
      (extract_unique_donors [pledgeUpper, pledgeLower]).length) :=
  categorize_darujme_donors_dedup (fun _ => none) [pledgeUpper, pledgeLower]
    "jana.novakova@example.cz" (by decide)

end TotemSync
